import Mathlib

/-!
# Skyveil: awning servo driver and rain-sensor sleep cycle

A shallow embedding of the two firmware cores of the repository:

* `Awning/main/app_driver.c` and the command path of `Awning/main/app_main.c`
  (namespace `Skyveil.Awning`);
* `get_reading` of `Sensor/main/app_main.c` (namespace `Skyveil.Sensor`).

C values are integers with explicit 32-bit wrap-around. Calls into the vendor
SDK are recorded, in program order, in a trace of `Call`s; the return code of
every SDK call whose result the C code inspects is an explicit argument of the
embedded function. Logging (`ESP_LOGI` and friends) is not part of the model.
-/

namespace Skyveil

/-! ## C arithmetic and error codes -/

/-- Value kept by a C `int` (32 bits, two's complement) for the mathematical
result `x`. -/
def wrap_int32 (x : Int) : Int := (x + 2 ^ 31) % 2 ^ 32 - 2 ^ 31

/-- Value kept by a C `uint32_t` for the mathematical result `x`; this is also
the conversion of an `int` to `uint32_t`. -/
def wrap_uint32 (x : Int) : Int := x % 2 ^ 32

/-- The SDK's `esp_err_t`, a 32-bit status code. -/
abbrev esp_err_t := Int

/-- The SDK's success code. -/
def ESP_OK : esp_err_t := 0

/-- The SDK's generic failure code. -/
def ESP_FAIL : esp_err_t := -1

namespace Awning

/-! ## Awning node: `app_driver.c` -/

/-- Speed modes of the PWM peripheral (`ledc_mode_t`). -/
inductive ledc_mode_t
  | LEDC_HIGH_SPEED_MODE
  | LEDC_LOW_SPEED_MODE
  deriving DecidableEq, Repr

/-- Timers of the PWM peripheral (`ledc_timer_t`). -/
inductive ledc_timer_t
  | LEDC_TIMER_0
  | LEDC_TIMER_1
  | LEDC_TIMER_2
  | LEDC_TIMER_3
  deriving DecidableEq, Repr

/-- Channels of the PWM peripheral (`ledc_channel_t`); only the first two are
listed, the driver uses channel 0. -/
inductive ledc_channel_t
  | LEDC_CHANNEL_0
  | LEDC_CHANNEL_1
  deriving DecidableEq, Repr

/-- The macro `#define OUTPUT_GPIO 4` -/
def OUTPUT_GPIO : Int := 4

/-- The macro `#define LEDC_TIMER LEDC_TIMER_0` -/
def LEDC_TIMER : ledc_timer_t := ledc_timer_t.LEDC_TIMER_0

/-- The macro `#define LEDC_MODE LEDC_LOW_SPEED_MODE` -/
def LEDC_MODE : ledc_mode_t := ledc_mode_t.LEDC_LOW_SPEED_MODE

/-- The macro `#define LEDC_CHANNEL LEDC_CHANNEL_0` -/
def LEDC_CHANNEL : ledc_channel_t := ledc_channel_t.LEDC_CHANNEL_0

/-- Modelled from the spec: the SDK enumerator `LEDC_TIMER_13_BIT` is declared
in `driver/ledc.h`, which is not among the sources; the spec gives
`resolutionBits = 13` and the source comment gives 8192 steps. -/
def LEDC_TIMER_13_BIT : Nat := 13

/-- The macro `#define LEDC_RESOLUTION LEDC_TIMER_13_BIT` -/
def LEDC_RESOLUTION : Nat := LEDC_TIMER_13_BIT

/-- The macro `#define SERVO_MIN_PULSE_US 500` -/
def SERVO_MIN_PULSE_US : Int := 500

/-- The macro `#define SERVO_MAX_PULSE_US 2500` -/
def SERVO_MAX_PULSE_US : Int := 2500

/-- The macro `#define SERVO_FREQ_HZ 50` -/
def SERVO_FREQ_HZ : Int := 50

/-- SDK calls made by the awning node, with the arguments that vary or that
the driver's behaviour depends on. -/
inductive Call
  | esp_rmaker_console_init
  | ledc_timer_config (speed_mode : ledc_mode_t) (timer_num : ledc_timer_t)
      (duty_resolution : Nat) (freq_hz : Int)
  | ledc_channel_config (speed_mode : ledc_mode_t) (channel : ledc_channel_t)
      (timer_sel : ledc_timer_t) (gpio_num : Int) (duty : Int)
  | ledc_set_duty (speed_mode : ledc_mode_t) (channel : ledc_channel_t) (duty : Int)
  | ledc_update_duty (speed_mode : ledc_mode_t) (channel : ledc_channel_t)
  | esp_rmaker_param_update (param_name : String) (val : Bool)
  | abort
  deriving DecidableEq, Repr

/-- Modelled from the spec: the hardware PWM channel behind `setDuty` and
`commit` (the peripheral itself is SDK code). `duty` is the value latched by
the last successful `ledc_set_duty`, `output` the value put into effect by the
last successful `ledc_update_duty`. -/
structure Channel where
  timer_configured : Bool
  configured : Bool
  duty : Int
  output : Int
  deriving DecidableEq, Repr

/-- The awning node as seen from outside: the PWM channel and the SDK calls
made so far, oldest first. -/
structure World where
  channel : Channel
  trace : List Call
  deriving DecidableEq, Repr

/-- How a C function ends: it returns a value, or the process is aborted. -/
inductive Outcome (α : Type)
  | returned (value : α) (w : World)
  | aborted (w : World)
  deriving DecidableEq, Repr

/-- The world in which a run ended. -/
def Outcome.world {α : Type} : Outcome α → World
  | Outcome.returned _ w => w
  | Outcome.aborted w => w

/-- Whether a run ended in `abort()`. -/
def Outcome.isAborted {α : Type} : Outcome α → Bool
  | Outcome.returned _ _ => false
  | Outcome.aborted _ => true

/-- Record one SDK call. -/
def World.call (w : World) (c : Call) : World :=
  { w with trace := w.trace ++ [c] }

/-- The SDK's `ESP_ERROR_CHECK(x)`: when `x` is not `ESP_OK` the process is
aborted, otherwise execution continues with `k`. -/
def ESP_ERROR_CHECK {α : Type} (x : esp_err_t) (w : World) (k : World → Outcome α) :
    Outcome α :=
  if x ≠ ESP_OK then Outcome.aborted (w.call Call.abort) else k w

/-- Modelled from the spec: `ledc_timer_config` (SDK), the timer half of
`configureChannel`; `ret` is the code the SDK returns. -/
def ledc_timer_config (speed_mode : ledc_mode_t) (timer_num : ledc_timer_t)
    (duty_resolution : Nat) (freq_hz : Int) (ret : esp_err_t) (w : World) : World :=
  { channel := if ret = ESP_OK then { w.channel with timer_configured := true } else w.channel
    trace := w.trace ++ [Call.ledc_timer_config speed_mode timer_num duty_resolution freq_hz] }

/-- Modelled from the spec: `ledc_channel_config` (SDK), the channel half of
`configureChannel`; on success the channel is configured with the given initial
duty. -/
def ledc_channel_config (speed_mode : ledc_mode_t) (channel : ledc_channel_t)
    (timer_sel : ledc_timer_t) (gpio_num : Int) (duty : Int) (ret : esp_err_t) (w : World) :
    World :=
  { channel :=
      if ret = ESP_OK then
        { w.channel with configured := true, duty := duty, output := duty }
      else w.channel
    trace := w.trace ++ [Call.ledc_channel_config speed_mode channel timer_sel gpio_num duty] }

/-- Modelled from the spec: `ledc_set_duty` (SDK), the spec's `setDuty`; on
success the value is latched. -/
def ledc_set_duty (speed_mode : ledc_mode_t) (channel : ledc_channel_t) (duty : Int)
    (ret : esp_err_t) (w : World) : World :=
  { channel := if ret = ESP_OK then { w.channel with duty := duty } else w.channel
    trace := w.trace ++ [Call.ledc_set_duty speed_mode channel duty] }

/-- Modelled from the spec: `ledc_update_duty` (SDK), the spec's `commit`; on
success the latched value takes effect. -/
def ledc_update_duty (speed_mode : ledc_mode_t) (channel : ledc_channel_t)
    (ret : esp_err_t) (w : World) : World :=
  { channel := if ret = ESP_OK then { w.channel with output := w.channel.duty } else w.channel
    trace := w.trace ++ [Call.ledc_update_duty speed_mode channel] }

/-- The function `app_driver_init`: configure the timer, then the channel, each under
`ESP_ERROR_CHECK`. `ret_timer` and `ret_channel` are what the two SDK calls
return. -/
def app_driver_init (ret_timer ret_channel : esp_err_t) (w : World) : Outcome Unit :=
  let w := ledc_timer_config LEDC_MODE LEDC_TIMER LEDC_RESOLUTION SERVO_FREQ_HZ ret_timer w
  ESP_ERROR_CHECK ret_timer w fun w =>
  let w := ledc_channel_config LEDC_MODE LEDC_CHANNEL LEDC_TIMER OUTPUT_GPIO 0 ret_channel w
  ESP_ERROR_CHECK ret_channel w fun w =>
  Outcome.returned () w

/-- The local `int angle` of `app_driver_set_state`. -/
def angle (state : Bool) : Int := if state then 180 else 0

/-- The local `uint32_t pulse_width_us` of `app_driver_set_state`:
`SERVO_MIN_PULSE_US + (angle * (SERVO_MAX_PULSE_US - SERVO_MIN_PULSE_US)/180)`,
computed in `int` and stored in a `uint32_t`. -/
def pulse_width_us (angle : Int) : Int :=
  wrap_uint32
    (wrap_int32 (SERVO_MIN_PULSE_US +
      wrap_int32 (Int.tdiv
        (wrap_int32 (angle * wrap_int32 (SERVO_MAX_PULSE_US - SERVO_MIN_PULSE_US))) 180)))

/-- The local `uint32_t duty` of `app_driver_set_state`:
`(pulse_width_us * (1 << LEDC_RESOLUTION)) / (1000000 / SERVO_FREQ_HZ)`; the
two `int` operands are converted to `uint32_t`, product and quotient are
unsigned. -/
def duty (pulse_width_us : Int) : Int :=
  Int.tdiv
    (wrap_uint32 (pulse_width_us * wrap_uint32 (wrap_int32 (1 * 2 ^ LEDC_RESOLUTION))))
    (wrap_uint32 (wrap_int32 (Int.tdiv 1000000 SERVO_FREQ_HZ)))

/-- The function `app_driver_set_state`: compute the duty for `state`, write it and commit
it, each call under `ESP_ERROR_CHECK`. `ret_set` and `ret_update` are what
`ledc_set_duty` and `ledc_update_duty` return. -/
def app_driver_set_state (state : Bool) (ret_set ret_update : esp_err_t) (w : World) :
    Outcome Unit :=
  let w := ledc_set_duty LEDC_MODE LEDC_CHANNEL (duty (pulse_width_us (angle state))) ret_set w
  ESP_ERROR_CHECK ret_set w fun w =>
  let w := ledc_update_duty LEDC_MODE LEDC_CHANNEL ret_update w
  ESP_ERROR_CHECK ret_update w fun w =>
  Outcome.returned () w

/-- The first statements of the awning's `app_main` (console, driver
initialisation, initial position); `DEFAULT_STATE` comes from `app_driver.h`
and is taken as an argument. The statements that follow in the source (NVS,
network, cloud agent) make no PWM call and are not part of the model. -/
def app_main (DEFAULT_STATE : Bool) (ret_timer ret_channel ret_set ret_update : esp_err_t)
    (w : World) : Outcome Unit :=
  let w := w.call Call.esp_rmaker_console_init
  match app_driver_init ret_timer ret_channel w with
  | Outcome.aborted w => Outcome.aborted w
  | Outcome.returned _ w => app_driver_set_state DEFAULT_STATE ret_set ret_update w

/-- The function `write_cb`: the handler of a remote write. `ctx` (used for logging only)
says whether a write context came with the request, `param_name` is what
`esp_rmaker_param_get_name(param)` yields, `val_b` is `val.val.b`, and
`ESP_RMAKER_DEF_POWER_NAME` is the SDK's name of the power parameter. The
`strcmp(..) == 0` test is string equality. The code ignores the result of
`esp_rmaker_param_update`. -/
def write_cb (ESP_RMAKER_DEF_POWER_NAME : String) (_ctx : Option Nat) (param_name : String)
    (val_b : Bool) (ret_set ret_update : esp_err_t) (w : World) : Outcome esp_err_t :=
  if param_name = ESP_RMAKER_DEF_POWER_NAME then
    match app_driver_set_state val_b ret_set ret_update w with
    | Outcome.aborted w => Outcome.aborted w
    | Outcome.returned _ w =>
        Outcome.returned ESP_OK (w.call (Call.esp_rmaker_param_update param_name val_b))
  else
    Outcome.returned ESP_OK w

/-- The awning node at power-up: nothing configured, no call made yet. -/
def World.powerUp : World :=
  { channel := { timer_configured := false, configured := false, duty := 0, output := 0 }
    trace := [] }

/-- The spec's pulse-width formula,
`minPulseUs + angle * (maxPulseUs - minPulseUs) / 180`, over unbounded
integers with division truncating toward zero. -/
def spec_pulseWidthUs (angle : Int) : Int :=
  SERVO_MIN_PULSE_US + Int.tdiv (angle * (SERVO_MAX_PULSE_US - SERVO_MIN_PULSE_US)) 180

/-- The spec's duty formula, `pulseWidthUs * 2^resolutionBits / periodUs` with
`periodUs = 1_000_000 / frequencyHz`, over unbounded integers with division
truncating toward zero. -/
def spec_duty (pulseWidthUs : Int) : Int :=
  Int.tdiv (pulseWidthUs * 2 ^ LEDC_RESOLUTION) (Int.tdiv 1000000 SERVO_FREQ_HZ)

/-- The PWM duty writes (`ledc_set_duty` calls) of a trace. -/
def duty_writes (t : List Call) : List Call :=
  t.filter fun c =>
    match c with
    | Call.ledc_set_duty _ _ _ => true
    | _ => false

/-- The channel configurations (`ledc_channel_config` calls) of a trace. -/
def channel_configs (t : List Call) : List Call :=
  t.filter fun c =>
    match c with
    | Call.ledc_channel_config _ _ _ _ _ => true
    | _ => false

/-- The parameter updates (`esp_rmaker_param_update` calls) of a trace. -/
def param_updates (t : List Call) : List Call :=
  t.filter fun c =>
    match c with
    | Call.esp_rmaker_param_update _ _ => true
    | _ => false

end Awning

namespace Sensor

/-! ## Sensor node: `get_reading` of `Sensor/main/app_main.c` -/

/-- The macro `#define SENSOR_PIN 4` -/
def SENSOR_PIN : Nat := 4

/-- The macro `#define SLEEP_TIME 10 * 1000000`, an `int` expression. -/
def SLEEP_TIME : Int := wrap_int32 (10 * 1000000)

/-- Value kept by a C `uint64_t` for the mathematical result `x`. -/
def wrap_uint64 (x : Int) : Int := x % 2 ^ 64

/-- The wake sources the program names (`esp_sleep_source_t`). -/
inductive esp_sleep_source_t
  | ESP_SLEEP_WAKEUP_TIMER
  | ESP_SLEEP_WAKEUP_GPIO
  deriving DecidableEq, Repr

/-- Pin level that ends deep sleep (`esp_deepsleep_gpio_wake_up_mode_t`). -/
inductive esp_deepsleep_gpio_wake_up_mode_t
  | ESP_GPIO_WAKEUP_GPIO_LOW
  | ESP_GPIO_WAKEUP_GPIO_HIGH
  deriving DecidableEq, Repr

open esp_sleep_source_t esp_deepsleep_gpio_wake_up_mode_t

/-- SDK calls made by `get_reading`, with their arguments. The parameter
handle is always `water_param` and is left out. -/
inductive Call
  | esp_rmaker_param_update_and_notify (val : Bool)
  | esp_rmaker_param_update (val : Bool)
  | vTaskDelay (xTicksToDelay : Nat)
  | esp_sleep_disable_wakeup_source (source : esp_sleep_source_t)
  | esp_sleep_enable_timer_wakeup (time_in_us : Int)
  | esp_deep_sleep_enable_gpio_wakeup (gpio_pin_mask : Int)
      (mode : esp_deepsleep_gpio_wake_up_mode_t)
  | esp_deep_sleep_start
  deriving DecidableEq, Repr

/-- The sensor node as seen from outside. `was_raining` is the
`RTC_DATA_ATTR` global. Modelled from the spec: the sleep controller holds the
spec's two kinds of wake source, a timer wake with its duration and a GPIO
wake with its pin mask and level, each armed (`some`) or not (`none`);
`deep_sleep` says whether deep sleep was entered. `trace` lists the SDK calls
made so far, oldest first. -/
structure State where
  was_raining : Bool
  timer_wakeup : Option Int
  gpio_wakeup : Option (Int × esp_deepsleep_gpio_wake_up_mode_t)
  deep_sleep : Bool
  trace : List Call
  deriving DecidableEq, Repr

/-- Record one SDK call. -/
def State.call (s : State) (c : Call) : State :=
  { s with trace := s.trace ++ [c] }

/-- Modelled from the spec: `esp_sleep_disable_wakeup_source` (SDK), the
spec's `disableWakeSource(kind)`. -/
def esp_sleep_disable_wakeup_source (source : esp_sleep_source_t) (s : State) : State :=
  match source with
  | ESP_SLEEP_WAKEUP_TIMER =>
      { s with timer_wakeup := none
               trace := s.trace ++ [Call.esp_sleep_disable_wakeup_source source] }
  | ESP_SLEEP_WAKEUP_GPIO =>
      { s with gpio_wakeup := none
               trace := s.trace ++ [Call.esp_sleep_disable_wakeup_source source] }

/-- Modelled from the spec: `esp_sleep_enable_timer_wakeup` (SDK), the spec's
`enableTimerWake(durationUs)`; the argument is a `uint64_t`. -/
def esp_sleep_enable_timer_wakeup (time_in_us : Int) (s : State) : State :=
  { s with timer_wakeup := some (wrap_uint64 time_in_us)
           trace := s.trace ++ [Call.esp_sleep_enable_timer_wakeup (wrap_uint64 time_in_us)] }

/-- Modelled from the spec: `esp_deep_sleep_enable_gpio_wakeup` (SDK), the
spec's `enableEdgeWake(pin, polarity)`; the mask is a `uint64_t`. -/
def esp_deep_sleep_enable_gpio_wakeup (gpio_pin_mask : Int)
    (mode : esp_deepsleep_gpio_wake_up_mode_t) (s : State) : State :=
  { s with gpio_wakeup := some (wrap_uint64 gpio_pin_mask, mode)
           trace := s.trace ++
             [Call.esp_deep_sleep_enable_gpio_wakeup (wrap_uint64 gpio_pin_mask) mode] }

/-- Modelled from the spec: `esp_deep_sleep_start` (SDK), the spec's
`enterDeepSleep()`, which does not return. -/
def esp_deep_sleep_start (s : State) : State :=
  { s with deep_sleep := true, trace := s.trace ++ [Call.esp_deep_sleep_start] }

/-- The function `get_reading`: one wake cycle. `level` is what
`gpio_get_level(SENSOR_PIN)` returns and `portTICK_PERIOD_MS` is the RTOS tick
period in milliseconds (a build setting). The result is the state at
deep-sleep entry; `esp_deep_sleep_start` does not return, so nothing runs
after it. -/
def get_reading (portTICK_PERIOD_MS : Nat) (level : Int) (s : State) : State :=
  let raining : Bool := !(level != 0)
  let s :=
    if (!s.was_raining && raining) || (s.was_raining && !raining) then
      s.call (Call.esp_rmaker_param_update_and_notify raining)
    else
      s.call (Call.esp_rmaker_param_update raining)
  let s := { s with was_raining := raining }
  let s := s.call (Call.vTaskDelay (5000 / portTICK_PERIOD_MS))
  let s := esp_sleep_disable_wakeup_source ESP_SLEEP_WAKEUP_TIMER s
  let s := esp_sleep_disable_wakeup_source ESP_SLEEP_WAKEUP_GPIO s
  let s :=
    if raining then
      esp_sleep_enable_timer_wakeup SLEEP_TIME s
    else
      esp_deep_sleep_enable_gpio_wakeup (1 * 2 ^ SENSOR_PIN) ESP_GPIO_WAKEUP_GPIO_LOW s
  esp_deep_sleep_start s

/-- The state in which the program starts after a wake-up or power-up: only
the retained flag carries a value over. -/
def boot (was_raining : Bool) : State :=
  { was_raining := was_raining, timer_wakeup := none, gpio_wakeup := none,
    deep_sleep := false, trace := [] }

/-- One wake cycle as recorded for a run of several: the flag found at the
start and the state at deep-sleep entry. -/
structure Cycle where
  before : Bool
  atSleep : State
  deriving DecidableEq, Repr

/-- Consecutive wake cycles, one per raw pin level, with the retained flag
handed from each cycle to the next. -/
def run_cycles (portTICK_PERIOD_MS : Nat) : Bool → List Int → List Cycle
  | _, [] => []
  | p, level :: rest =>
      let s := get_reading portTICK_PERIOD_MS level (boot p)
      { before := p, atSleep := s } :: run_cycles portTICK_PERIOD_MS s.was_raining rest

/-- The state-sink calls of a trace. -/
def sink_calls (t : List Call) : List Call :=
  t.filter fun c =>
    match c with
    | Call.esp_rmaker_param_update_and_notify _ => true
    | Call.esp_rmaker_param_update _ => true
    | _ => false

/-- The value carried by a state-sink call. -/
def Call.reported : Call → Option Bool
  | Call.esp_rmaker_param_update_and_notify v => some v
  | Call.esp_rmaker_param_update v => some v
  | _ => none

/-- Number of wake sources armed. -/
def State.armed (s : State) : Nat :=
  (if s.timer_wakeup.isSome then 1 else 0) + (if s.gpio_wakeup.isSome then 1 else 0)

/-- The logical reading for a raw pin level: raining exactly when the level
is 0. -/
def reading (level : Int) : Bool := decide (level = 0)

/-- The state-sink call expected of a cycle that finds the flag `p` and reads
`r`: the notify call when they differ, the silent update when they agree. -/
def report (p r : Bool) : Call :=
  if p != r then Call.esp_rmaker_param_update_and_notify r else Call.esp_rmaker_param_update r

/-- The arming call expected for the reading `r`: the timer for 10,000,000 us
when raining, the GPIO wake on pin 4 (mask 16), low level, when dry. -/
def arm (r : Bool) : Call :=
  if r then Call.esp_sleep_enable_timer_wakeup 10000000
  else Call.esp_deep_sleep_enable_gpio_wakeup 16 ESP_GPIO_WAKEUP_GPIO_LOW

/-- The flag a run of cycles finds at the start of cycle `k`: the initial
value for the first cycle, the reading of cycle `k - 1` afterwards. -/
def flag_before (p0 : Bool) (levels : List Int) : Nat → Bool
  | 0 => p0
  | k + 1 => reading (levels.getD k 0)

/-- Duration in milliseconds of a `vTaskDelay` of `xTicksToDelay` ticks. -/
def delay_ms (portTICK_PERIOD_MS xTicksToDelay : Nat) : Nat :=
  xTicksToDelay * portTICK_PERIOD_MS

end Sensor

/-! ## Awning node: properties -/

namespace Awning

theorem duty_of_true : duty (pulse_width_us (angle true)) = 1024 := by decide

theorem duty_of_false : duty (pulse_width_us (angle false)) = 204 := by decide

theorem duty_of_state (state : Bool) :
    duty (pulse_width_us (angle state)) = if state then 1024 else 204 := by
  cases state
  · exact duty_of_false
  · exact duty_of_true

/-- What `app_driver_set_state` does for arbitrary return codes of the two
PWM calls. -/
theorem app_driver_set_state_eq (state : Bool) (ret_set ret_update : esp_err_t) (w : World) :
    app_driver_set_state state ret_set ret_update w =
      let d : Int := if state then 1024 else 204
      if ret_set ≠ ESP_OK then
        Outcome.aborted
          { channel := w.channel
            trace := w.trace ++ [Call.ledc_set_duty LEDC_MODE LEDC_CHANNEL d, Call.abort] }
      else if ret_update ≠ ESP_OK then
        Outcome.aborted
          { channel := { w.channel with duty := d }
            trace := w.trace ++ [Call.ledc_set_duty LEDC_MODE LEDC_CHANNEL d,
              Call.ledc_update_duty LEDC_MODE LEDC_CHANNEL, Call.abort] }
      else
        Outcome.returned ()
          { channel := { w.channel with duty := d, output := d }
            trace := w.trace ++ [Call.ledc_set_duty LEDC_MODE LEDC_CHANNEL d,
              Call.ledc_update_duty LEDC_MODE LEDC_CHANNEL] } := by
  unfold app_driver_set_state
  rw [duty_of_state]
  by_cases h1 : ret_set = ESP_OK <;> by_cases h2 : ret_update = ESP_OK <;>
    simp [ESP_ERROR_CHECK, ledc_set_duty, ledc_update_duty, World.call, h1, h2]

/-- What `app_driver_set_state` does when both PWM calls succeed. -/
theorem app_driver_set_state_ok (state : Bool) (w : World) :
    app_driver_set_state state ESP_OK ESP_OK w =
      Outcome.returned ()
        { channel := { w.channel with duty := if state then 1024 else 204,
                                      output := if state then 1024 else 204 }
          trace := w.trace ++
            [Call.ledc_set_duty LEDC_MODE LEDC_CHANNEL (if state then 1024 else 204),
             Call.ledc_update_duty LEDC_MODE LEDC_CHANNEL] } := by
  rw [app_driver_set_state_eq]
  simp

/-- What `app_driver_init` does for arbitrary return codes of the two
configuration calls. -/
theorem app_driver_init_eq (ret_timer ret_channel : esp_err_t) (w : World) :
    app_driver_init ret_timer ret_channel w =
      if ret_timer ≠ ESP_OK then
        Outcome.aborted
          { channel := w.channel
            trace := w.trace ++
              [Call.ledc_timer_config LEDC_MODE LEDC_TIMER LEDC_RESOLUTION SERVO_FREQ_HZ,
               Call.abort] }
      else if ret_channel ≠ ESP_OK then
        Outcome.aborted
          { channel := { w.channel with timer_configured := true }
            trace := w.trace ++
              [Call.ledc_timer_config LEDC_MODE LEDC_TIMER LEDC_RESOLUTION SERVO_FREQ_HZ,
               Call.ledc_channel_config LEDC_MODE LEDC_CHANNEL LEDC_TIMER OUTPUT_GPIO 0,
               Call.abort] }
      else
        Outcome.returned ()
          { channel := { timer_configured := true, configured := true, duty := 0, output := 0 }
            trace := w.trace ++
              [Call.ledc_timer_config LEDC_MODE LEDC_TIMER LEDC_RESOLUTION SERVO_FREQ_HZ,
               Call.ledc_channel_config LEDC_MODE LEDC_CHANNEL LEDC_TIMER OUTPUT_GPIO 0] } := by
  unfold app_driver_init
  by_cases h1 : ret_timer = ESP_OK <;> by_cases h2 : ret_channel = ESP_OK <;>
    simp [ESP_ERROR_CHECK, ledc_timer_config, ledc_channel_config, World.call, h1, h2]

/-- C1: for every boolean state and every prior channel, the duty that
`app_driver_set_state` computes from the reference constants is 1024 for `true`
and 204 for `false`; the first call it makes, whatever the PWM calls return,
is the duty write with that value; with both PWM calls succeeding it writes
and commits exactly that value; and `set_state(true)` followed by
`set_state(false)` commits 1024 and then 204. -/
theorem app_driver_set_state_duty (state : Bool) (w : World) :
    duty (pulse_width_us (angle state)) = (if state then 1024 else 204) ∧
    (∀ ret_set ret_update : esp_err_t, ∃ rest,
      (app_driver_set_state state ret_set ret_update w).world.trace =
        w.trace ++
          Call.ledc_set_duty LEDC_MODE LEDC_CHANNEL (if state then 1024 else 204) :: rest) ∧
    app_driver_set_state state ESP_OK ESP_OK w =
      Outcome.returned ()
        { channel := { w.channel with duty := if state then 1024 else 204,
                                      output := if state then 1024 else 204 }
          trace := w.trace ++
            [Call.ledc_set_duty LEDC_MODE LEDC_CHANNEL (if state then 1024 else 204),
             Call.ledc_update_duty LEDC_MODE LEDC_CHANNEL] } ∧
    (∃ w1 w2,
      app_driver_set_state true ESP_OK ESP_OK w = Outcome.returned () w1 ∧
      w1.channel.output = 1024 ∧
      app_driver_set_state false ESP_OK ESP_OK w1 = Outcome.returned () w2 ∧
      w2.channel.output = 204 ∧
      w2.trace = w.trace ++
        [Call.ledc_set_duty LEDC_MODE LEDC_CHANNEL 1024,
         Call.ledc_update_duty LEDC_MODE LEDC_CHANNEL,
         Call.ledc_set_duty LEDC_MODE LEDC_CHANNEL 204,
         Call.ledc_update_duty LEDC_MODE LEDC_CHANNEL]) := by
  refine ⟨duty_of_state state, ?_, app_driver_set_state_ok state w, ?_⟩
  · intro ret_set ret_update
    rw [app_driver_set_state_eq]
    by_cases h1 : ret_set = ESP_OK <;> by_cases h2 : ret_update = ESP_OK <;>
      simp [Outcome.world, h1, h2]
  · refine ⟨_, _, app_driver_set_state_ok true w, ?_, app_driver_set_state_ok false _, ?_, ?_⟩ <;>
      simp

/-- C6: for every boolean `s` and every prior channel, two calls of
`app_driver_set_state(s)` in a row (the PWM calls succeeding) each perform the
same duty write followed by a commit, and the channel after the second call
equals the channel after the first. -/
theorem app_driver_set_state_idempotent (s : Bool) (w : World) :
    ∃ w1 w2,
      app_driver_set_state s ESP_OK ESP_OK w = Outcome.returned () w1 ∧
      app_driver_set_state s ESP_OK ESP_OK w1 = Outcome.returned () w2 ∧
      w1.trace = w.trace ++
        [Call.ledc_set_duty LEDC_MODE LEDC_CHANNEL (if s then 1024 else 204),
         Call.ledc_update_duty LEDC_MODE LEDC_CHANNEL] ∧
      w2.trace = w1.trace ++
        [Call.ledc_set_duty LEDC_MODE LEDC_CHANNEL (if s then 1024 else 204),
         Call.ledc_update_duty LEDC_MODE LEDC_CHANNEL] ∧
      w2.channel = w1.channel := by
  exact ⟨_, _, app_driver_set_state_ok s w, app_driver_set_state_ok s _, rfl, rfl, rfl⟩

/-- C7: for both values of `state` every intermediate value of the duty
computation fits its C type: the `int` values `2500 - 500`,
`angle * (2500 - 500)`, its quotient by 180, the sum with 500 (which is not
negative, so its conversion to `uint32_t` keeps it), `1 << 13` and
`1000000 / 50` lie in the signed 32-bit range, and the unsigned product
`pulse_width_us * (1 << 13)` is below `2^32`; so the pulse width and the duty
computed with 32-bit wrap-around equal those computed with unbounded integers
and truncating division. -/
theorem duty_no_overflow (state : Bool) :
    (-2 ^ 31 ≤ SERVO_MAX_PULSE_US - SERVO_MIN_PULSE_US ∧
      SERVO_MAX_PULSE_US - SERVO_MIN_PULSE_US < 2 ^ 31) ∧
    (-2 ^ 31 ≤ angle state * (SERVO_MAX_PULSE_US - SERVO_MIN_PULSE_US) ∧
      angle state * (SERVO_MAX_PULSE_US - SERVO_MIN_PULSE_US) < 2 ^ 31) ∧
    (-2 ^ 31 ≤ Int.tdiv (angle state * (SERVO_MAX_PULSE_US - SERVO_MIN_PULSE_US)) 180 ∧
      Int.tdiv (angle state * (SERVO_MAX_PULSE_US - SERVO_MIN_PULSE_US)) 180 < 2 ^ 31) ∧
    (0 ≤ SERVO_MIN_PULSE_US +
        Int.tdiv (angle state * (SERVO_MAX_PULSE_US - SERVO_MIN_PULSE_US)) 180 ∧
      SERVO_MIN_PULSE_US +
        Int.tdiv (angle state * (SERVO_MAX_PULSE_US - SERVO_MIN_PULSE_US)) 180 < 2 ^ 31) ∧
    (0 ≤ (1 : Int) * 2 ^ LEDC_RESOLUTION ∧ (1 : Int) * 2 ^ LEDC_RESOLUTION < 2 ^ 31) ∧
    (0 ≤ Int.tdiv 1000000 SERVO_FREQ_HZ ∧ Int.tdiv 1000000 SERVO_FREQ_HZ < 2 ^ 31) ∧
    (0 ≤ pulse_width_us (angle state) * (1 * 2 ^ LEDC_RESOLUTION) ∧
      pulse_width_us (angle state) * (1 * 2 ^ LEDC_RESOLUTION) < 2 ^ 32) ∧
    pulse_width_us (angle state) = spec_pulseWidthUs (angle state) ∧
    duty (pulse_width_us (angle state)) = spec_duty (spec_pulseWidthUs (angle state)) := by
  cases state <;> decide

/-- C9: with the PWM configuration calls returning a result,
`app_driver_init` aborts exactly when the timer configuration or the channel
configuration fails; when the timer configuration fails no channel
configuration is attempted; and when either fails the awning's `app_main`
aborts without any duty write, the channel staying unconfigured with its duty
and output untouched. When both succeed, `app_main` goes on to the duty write
for the default state. -/
theorem app_driver_init_abort_iff (DEFAULT_STATE : Bool)
    (ret_timer ret_channel ret_set ret_update : esp_err_t) (w : World) :
    ((app_driver_init ret_timer ret_channel w).isAborted = true ↔
      (ret_timer ≠ ESP_OK ∨ ret_channel ≠ ESP_OK)) ∧
    (ret_timer ≠ ESP_OK →
      channel_configs (app_driver_init ret_timer ret_channel w).world.trace =
        channel_configs w.trace) ∧
    ((ret_timer ≠ ESP_OK ∨ ret_channel ≠ ESP_OK) →
      (app_main DEFAULT_STATE ret_timer ret_channel ret_set ret_update w).isAborted = true ∧
      duty_writes (app_main DEFAULT_STATE ret_timer ret_channel ret_set ret_update w).world.trace =
        duty_writes w.trace ∧
      (app_main DEFAULT_STATE ret_timer ret_channel ret_set ret_update w).world.channel.configured =
        w.channel.configured ∧
      (app_main DEFAULT_STATE ret_timer ret_channel ret_set ret_update w).world.channel.duty =
        w.channel.duty ∧
      (app_main DEFAULT_STATE ret_timer ret_channel ret_set ret_update w).world.channel.output =
        w.channel.output) ∧
    ((ret_timer = ESP_OK ∧ ret_channel = ESP_OK) →
      duty_writes (app_main DEFAULT_STATE ret_timer ret_channel ret_set ret_update w).world.trace =
        duty_writes w.trace ++
          [Call.ledc_set_duty LEDC_MODE LEDC_CHANNEL (if DEFAULT_STATE then 1024 else 204)]) := by
  simp only [app_main, app_driver_init_eq, app_driver_set_state_eq]
  by_cases h1 : ret_timer = ESP_OK <;> by_cases h2 : ret_channel = ESP_OK <;>
    by_cases h3 : ret_set = ESP_OK <;> by_cases h4 : ret_update = ESP_OK <;>
    simp [h1, h2, h3, h4, Outcome.isAborted, Outcome.world, World.call, channel_configs,
      duty_writes, List.filter_append]

/-- At power-up with a failing timer configuration, `app_main` aborts before
any duty write. -/
theorem app_driver_init_abort_iff_witness :
    (app_main true ESP_FAIL ESP_OK ESP_OK ESP_OK World.powerUp).isAborted = true ∧
    duty_writes (app_main true ESP_FAIL ESP_OK ESP_OK ESP_OK World.powerUp).world.trace =
      duty_writes World.powerUp.trace ∧
    (app_main true ESP_FAIL ESP_OK ESP_OK ESP_OK World.powerUp).world.channel.configured =
      World.powerUp.channel.configured ∧
    (app_main true ESP_FAIL ESP_OK ESP_OK ESP_OK World.powerUp).world.channel.duty =
      World.powerUp.channel.duty ∧
    (app_main true ESP_FAIL ESP_OK ESP_OK ESP_OK World.powerUp).world.channel.output =
      World.powerUp.channel.output :=
  (app_driver_init_abort_iff true ESP_FAIL ESP_OK ESP_OK ESP_OK World.powerUp).2.2.1
    (Or.inl (by decide))

/-- C10: for every remote write delivered to `write_cb`, whatever the PWM
calls return, the write adds exactly one duty write, carrying the duty of the
written boolean, when the parameter name is the power parameter name, and none
otherwise; with the PWM calls succeeding the callback returns `ESP_OK` and
adds exactly one parameter update, of the written parameter to the written
boolean, when the name is the power parameter name, and none otherwise; for
any other name the callback returns `ESP_OK` and leaves the world as it
was. -/
theorem write_cb_power_only (ESP_RMAKER_DEF_POWER_NAME : String) (ctx : Option Nat)
    (param_name : String) (val_b : Bool) (w : World) :
    (∀ ret_set ret_update : esp_err_t,
      duty_writes
          (write_cb ESP_RMAKER_DEF_POWER_NAME ctx param_name val_b ret_set ret_update w).world.trace =
        duty_writes w.trace ++
          (if param_name = ESP_RMAKER_DEF_POWER_NAME then
            [Call.ledc_set_duty LEDC_MODE LEDC_CHANNEL (duty (pulse_width_us (angle val_b)))]
           else [])) ∧
    (∃ w1,
      write_cb ESP_RMAKER_DEF_POWER_NAME ctx param_name val_b ESP_OK ESP_OK w =
        Outcome.returned ESP_OK w1 ∧
      param_updates w1.trace =
        param_updates w.trace ++
          (if param_name = ESP_RMAKER_DEF_POWER_NAME then
            [Call.esp_rmaker_param_update param_name val_b]
           else []) ∧
      w1.trace = w.trace ++
          (if param_name = ESP_RMAKER_DEF_POWER_NAME then
            [Call.ledc_set_duty LEDC_MODE LEDC_CHANNEL (if val_b then 1024 else 204),
             Call.ledc_update_duty LEDC_MODE LEDC_CHANNEL,
             Call.esp_rmaker_param_update param_name val_b]
           else [])) ∧
    (param_name ≠ ESP_RMAKER_DEF_POWER_NAME →
      ∀ ret_set ret_update : esp_err_t,
        write_cb ESP_RMAKER_DEF_POWER_NAME ctx param_name val_b ret_set ret_update w =
          Outcome.returned ESP_OK w) := by
  unfold write_cb
  by_cases hn : param_name = ESP_RMAKER_DEF_POWER_NAME
  · refine ⟨?_, ?_, fun h => absurd hn h⟩
    · intro ret_set ret_update
      rw [duty_of_state, app_driver_set_state_eq]
      by_cases h3 : ret_set = ESP_OK <;> by_cases h4 : ret_update = ESP_OK <;>
        simp [hn, h3, h4, Outcome.world, World.call, duty_writes, List.filter_append]
    · rw [app_driver_set_state_ok]
      simp [hn, World.call, param_updates, List.filter_append]
  · simp [hn, Outcome.world, param_updates]

/-- A write to a parameter other than the power parameter returns `ESP_OK` and
changes nothing, even with a PWM peripheral that would fail. -/
theorem write_cb_power_only_witness :
    write_cb "Power" none "Name" true ESP_FAIL ESP_FAIL World.powerUp =
      Outcome.returned ESP_OK World.powerUp :=
  (write_cb_power_only "Power" none "Name" true World.powerUp).2.2 (by decide)
    ESP_FAIL ESP_FAIL

end Awning

/-! ## Sensor node: properties -/

namespace Sensor

open esp_sleep_source_t esp_deepsleep_gpio_wake_up_mode_t

theorem sleep_time_us : wrap_uint64 SLEEP_TIME = 10000000 := by decide

theorem sensor_pin_mask : wrap_uint64 (1 * 2 ^ SENSOR_PIN) = 16 := by decide

theorem sensor_pin_mask_simp : wrap_uint64 (2 ^ SENSOR_PIN) = 16 := by decide

theorem raining_eq_reading (level : Int) : (!(level != 0)) = reading level := by
  by_cases h : level = 0 <;> simp [reading, h]

/-- What one run of `get_reading` does. -/
theorem get_reading_eq (tick : Nat) (level : Int) (s : State) :
    get_reading tick level s =
      { was_raining := reading level
        timer_wakeup := if reading level then some 10000000 else none
        gpio_wakeup := if reading level then none else some (16, ESP_GPIO_WAKEUP_GPIO_LOW)
        deep_sleep := true
        trace := s.trace ++
          [report s.was_raining (reading level),
           Call.vTaskDelay (5000 / tick),
           Call.esp_sleep_disable_wakeup_source ESP_SLEEP_WAKEUP_TIMER,
           Call.esp_sleep_disable_wakeup_source ESP_SLEEP_WAKEUP_GPIO,
           arm (reading level),
           Call.esp_deep_sleep_start] } := by
  unfold get_reading
  rw [raining_eq_reading]
  cases hp : s.was_raining <;> cases hr : reading level <;>
    simp [State.call, esp_sleep_disable_wakeup_source, esp_sleep_enable_timer_wakeup,
      esp_deep_sleep_enable_gpio_wakeup, esp_deep_sleep_start, report, arm, sleep_time_us,
      sensor_pin_mask, sensor_pin_mask_simp]

/-- C2: for every previous persisted value `p` and every raw pin level, with
`r` true exactly when the level is 0, one run of `get_reading` makes exactly
one state-sink call, carrying `r`; it is the notify call if and only if
`p != r` and the silent update call if and only if `p == r`. -/
theorem get_reading_reports_once (tick : Nat) (level : Int) (s : State) :
    ∃ c,
      sink_calls ((get_reading tick level s).trace.drop s.trace.length) = [c] ∧
      sink_calls (get_reading tick level s).trace = sink_calls s.trace ++ [c] ∧
      c.reported = some (decide (level = 0)) ∧
      (c = Call.esp_rmaker_param_update_and_notify (decide (level = 0)) ↔
        s.was_raining ≠ decide (level = 0)) ∧
      (c = Call.esp_rmaker_param_update (decide (level = 0)) ↔
        s.was_raining = decide (level = 0)) := by
  refine ⟨report s.was_raining (reading level), ?_⟩
  rw [get_reading_eq]
  cases hp : s.was_raining <;> cases hr : reading level <;>
    simp [reading] at hr <;>
    simp [sink_calls, report, arm, Call.reported, List.filter_append, hr, reading]

/-- C3: for every set of wake sources armed before the cycle, every previous
persisted value and every raw pin level, at deep-sleep entry exactly one wake
source is armed and it matches the reading: when the level is 0 (raining) the
timer wake is armed for 10,000,000 us and the GPIO wake is disabled; otherwise
the GPIO wake is armed with the mask `2^SENSOR_PIN`, whose only pin is pin 4,
for the low level, and the timer wake is disabled. -/
theorem get_reading_wake_source (tick : Nat) (level : Int) (s : State) :
    (get_reading tick level s).deep_sleep = true ∧
    (get_reading tick level s).armed = 1 ∧
    (level = 0 →
      (get_reading tick level s).timer_wakeup = some 10000000 ∧
      (get_reading tick level s).gpio_wakeup = none) ∧
    (level ≠ 0 →
      (get_reading tick level s).gpio_wakeup =
        some (2 ^ SENSOR_PIN, ESP_GPIO_WAKEUP_GPIO_LOW) ∧
      (get_reading tick level s).timer_wakeup = none) ∧
    (∀ pin : Nat, Int.testBit (2 ^ SENSOR_PIN) pin = true ↔ pin = 4) := by
  rw [get_reading_eq]
  refine ⟨rfl, ?_, ?_, ?_, ?_⟩
  · by_cases h : level = 0 <;> simp [State.armed, reading, h]
  · intro h
    simp [reading, h]
  · intro h
    simp [reading, h, SENSOR_PIN]
  · intro pin
    show Nat.testBit (2 ^ 4) pin = true ↔ pin = 4
    rw [Nat.testBit_two_pow]
    simp [eq_comm]

/-- A cycle that reads level 0 with the GPIO wake armed beforehand: only the
timer wake is armed at deep-sleep entry. -/
theorem get_reading_wake_source_witness :
    (get_reading 10 0
        { boot false with gpio_wakeup := some (16, ESP_GPIO_WAKEUP_GPIO_LOW) }).timer_wakeup =
      some 10000000 ∧
    (get_reading 10 0
        { boot false with gpio_wakeup := some (16, ESP_GPIO_WAKEUP_GPIO_LOW) }).gpio_wakeup =
      none :=
  (get_reading_wake_source 10 0
    { boot false with gpio_wakeup := some (16, ESP_GPIO_WAKEUP_GPIO_LOW) }).2.2.1 rfl

/-- C4: for every previous persisted value and every raw pin level, after one
run of `get_reading` the persisted flag `was_raining` is the logical negation
of the raw level: true exactly when the level read is 0. -/
theorem get_reading_persists_reading (tick : Nat) (level : Int) (s : State) :
    (get_reading tick level s).was_raining = (!(level != 0)) ∧
    ((get_reading tick level s).was_raining = true ↔ level = 0) := by
  rw [get_reading_eq]
  by_cases h : level = 0 <;> simp [reading, h]

/-- C8: for every previous persisted value and every raw pin level, the calls
of one run of `get_reading` are, in this order: the single state-sink report,
the settle delay of `5000 / portTICK_PERIOD_MS` ticks, the disabling of the
timer wake, the disabling of the GPIO wake, the arming of one wake source, and
deep-sleep entry as the last call. The delay lasts 5000 ms whenever the tick
period divides 5000. -/
theorem get_reading_call_order (tick : Nat) (level : Int) (s : State) :
    (get_reading tick level s).trace =
      s.trace ++
        [(if s.was_raining != decide (level = 0) then
            Call.esp_rmaker_param_update_and_notify (decide (level = 0))
          else Call.esp_rmaker_param_update (decide (level = 0))),
         Call.vTaskDelay (5000 / tick),
         Call.esp_sleep_disable_wakeup_source ESP_SLEEP_WAKEUP_TIMER,
         Call.esp_sleep_disable_wakeup_source ESP_SLEEP_WAKEUP_GPIO,
         (if level = 0 then Call.esp_sleep_enable_timer_wakeup 10000000
          else Call.esp_deep_sleep_enable_gpio_wakeup (2 ^ SENSOR_PIN) ESP_GPIO_WAKEUP_GPIO_LOW),
         Call.esp_deep_sleep_start] ∧
    (tick ∣ 5000 → delay_ms tick (5000 / tick) = 5000) := by
  refine ⟨?_, fun h => Nat.div_mul_cancel h⟩
  rw [get_reading_eq]
  by_cases h : level = 0 <;> simp [reading, report, arm, h, SENSOR_PIN]

/-- With a tick period of 10 ms the settle delay of 500 ticks lasts 5000 ms. -/
theorem get_reading_call_order_witness : delay_ms 10 (5000 / 10) = 5000 :=
  (get_reading_call_order 10 0 (boot false)).2 (by decide)

/-- Cycle `k` of a run, in closed form. -/
theorem run_cycles_getElem? (tick : Nat) (p0 : Bool) (levels : List Int) (k : Nat) :
    (run_cycles tick p0 levels)[k]? =
      (levels[k]?).map fun level =>
        { before := flag_before p0 levels k
          atSleep := get_reading tick level (boot (flag_before p0 levels k)) } := by
  induction levels generalizing p0 k with
  | nil => simp [run_cycles]
  | cons l ls ih =>
    cases k with
    | zero => simp [run_cycles, flag_before]
    | succ k =>
      simp only [run_cycles, List.getElem?_cons_succ]
      rw [ih]
      have hw : (get_reading tick l (boot p0)).was_raining = reading l := by
        rw [get_reading_eq]
      have hf : flag_before (reading l) ls k = flag_before p0 (l :: ls) (k + 1) := by
        cases k <;> simp [flag_before]
      rw [hw, hf]

/-- The state-sink calls of a cycle started from `boot p`. -/
theorem sink_calls_cycle (tick : Nat) (level : Int) (p : Bool) :
    sink_calls (get_reading tick level (boot p)).trace = [report p (reading level)] := by
  rw [get_reading_eq]
  cases p <;> cases hr : reading level <;> simp [sink_calls, boot, report, arm]

/-- C5: in a run of consecutive wake cycles over a finite sequence of raw
readings, started with the flag `p0`, cycle `k` finds as persisted flag the
reading of cycle `k - 1` (`p0` for the first cycle), reports through the
notify path if and only if its reading differs from that value and through the
silent update if and only if it equals it, and for `k > 0` the flag it finds
is the value carried by the single report of cycle `k - 1`; in particular,
from `false`, two cycles that both read raining (level 0) give a notify and
then a silent update. -/
theorem run_cycles_edge_detection (tick : Nat) (p0 : Bool) (levels : List Int) (k : Nat)
    (hk : k < levels.length) :
    (∃ c,
      (run_cycles tick p0 levels)[k]? = some c ∧
      c.before = (if k = 0 then p0 else decide (levels.getD (k - 1) 0 = 0)) ∧
      (sink_calls c.atSleep.trace =
          [Call.esp_rmaker_param_update_and_notify (decide (levels.getD k 0 = 0))] ↔
        decide (levels.getD k 0 = 0) ≠ c.before) ∧
      (sink_calls c.atSleep.trace =
          [Call.esp_rmaker_param_update (decide (levels.getD k 0 = 0))] ↔
        decide (levels.getD k 0 = 0) = c.before) ∧
      (0 < k → ∃ c1 call,
        (run_cycles tick p0 levels)[k - 1]? = some c1 ∧
        sink_calls c1.atSleep.trace = [call] ∧
        call.reported = some c.before)) ∧
    (run_cycles tick false [0, 0]).map (fun c => sink_calls c.atSleep.trace) =
      [[Call.esp_rmaker_param_update_and_notify true], [Call.esp_rmaker_param_update true]] := by
  constructor
  · have hget : levels[k]? = some (levels.getD k 0) := by
      rw [List.getD_eq_getElem?_getD, List.getElem?_eq_getElem hk]
      rfl
    refine ⟨_, by rw [run_cycles_getElem?, hget]; rfl, ?_, ?_, ?_, ?_⟩
    · cases k <;> simp [flag_before, reading]
    · simp only [sink_calls_cycle]
      cases flag_before p0 levels k <;> by_cases h : levels.getD k 0 = 0 <;>
        simp [report, reading, h]
    · simp only [sink_calls_cycle]
      cases flag_before p0 levels k <;> by_cases h : levels.getD k 0 = 0 <;>
        simp [report, reading, h]
    · intro hpos
      obtain ⟨j, rfl⟩ : ∃ j, k = j + 1 := ⟨k - 1, by omega⟩
      have hj : j < levels.length := by omega
      have hgetj : levels[j]? = some (levels.getD j 0) := by
        rw [List.getD_eq_getElem?_getD, List.getElem?_eq_getElem hj]
        rfl
      refine ⟨{ before := flag_before p0 levels j
                atSleep := get_reading tick (levels.getD j 0) (boot (flag_before p0 levels j)) },
        report (flag_before p0 levels j) (reading (levels.getD j 0)), ?_, ?_, ?_⟩
      · rw [Nat.add_sub_cancel, run_cycles_getElem?, hgetj]
        rfl
      · exact sink_calls_cycle _ _ _
      · cases flag_before p0 levels j <;> cases hr : reading (levels.getD j 0) <;>
          simp_all [report, Call.reported, flag_before]
  · simp [run_cycles, get_reading_eq, sink_calls, boot, report, arm, reading]

/-- A run of three cycles reading dry, raining, raining from the flag
`false`: the edge-detection property at the second cycle. -/
theorem run_cycles_edge_detection_witness :
    (1 < [1, 0, 0].length) ∧
    ((∃ c,
      (run_cycles 10 false [1, 0, 0])[1]? = some c ∧
      c.before = (if 1 = 0 then false else decide (([1, 0, 0] : List Int).getD (1 - 1) 0 = 0)) ∧
      (sink_calls c.atSleep.trace =
          [Call.esp_rmaker_param_update_and_notify (decide (([1, 0, 0] : List Int).getD 1 0 = 0))] ↔
        decide (([1, 0, 0] : List Int).getD 1 0 = 0) ≠ c.before) ∧
      (sink_calls c.atSleep.trace =
          [Call.esp_rmaker_param_update (decide (([1, 0, 0] : List Int).getD 1 0 = 0))] ↔
        decide (([1, 0, 0] : List Int).getD 1 0 = 0) = c.before) ∧
      (0 < 1 → ∃ c1 call,
        (run_cycles 10 false [1, 0, 0])[1 - 1]? = some c1 ∧
        sink_calls c1.atSleep.trace = [call] ∧
        call.reported = some c.before)) ∧
    (run_cycles 10 false [0, 0]).map (fun c => sink_calls c.atSleep.trace) =
      [[Call.esp_rmaker_param_update_and_notify true], [Call.esp_rmaker_param_update true]]) :=
  ⟨by decide, run_cycles_edge_detection 10 false [1, 0, 0] 1 (by decide)⟩

end Sensor

end Skyveil
